import Mathlib

/-!
Shallow embedding of the GitStory front-end glue code:
the repository-context helpers and event handlers of
`src/components/tambo/message-thread-full.tsx` and the top-level page
component (`Home`).  Browser state (the `localStorage` map, the chat input
value, the list of messages handed to the SDK submit, the registered window
listeners) is passed explicitly; the straight-line async handler bodies are
embedded as lists of primitive actions together with a state interpreter.
-/

namespace GitStory

/-! ## Data model -/

/-- The shape destructured from the JSON stored under the localStorage key
`gitstory-repo`: `const { owner, repo, branch } = JSON.parse(saved)`.
`branch` is an `Option` because the destructured field may be absent
(JavaScript `undefined`), which is falsy in the template-literal ternary. -/
structure RepoSelection where
  owner : String
  repo : String
  branch : Option String
deriving DecidableEq, Repr

/-- The browser localStorage, a partial map from keys to stored strings. -/
def Store : Type := String → Option String

/-- Abstract model of `JSON.parse` followed by the `{ owner, repo, branch }`
destructuring: an opaque function that either yields a `RepoSelection` or
throws (`Except.error`). -/
def ParseFn : Type := String → Except Unit RepoSelection

/-- The URL built at line 74 of `message-thread-full.tsx`:
`https://github.com/{owner}/{repo}` followed by `/tree/{branch}` exactly
when `branch` is truthy (present and non-empty). -/
def repoContextUrl (sel : RepoSelection) : String :=
  "https://github.com/" ++ sel.owner ++ "/" ++ sel.repo ++
    (match sel.branch with
     | none => ""
     | some b => if b = "" then "" else "/tree/" ++ b)

/-- The body of the `try` block in `getRepoContext` (lines 70-76): read the
item, and if it is truthy, parse it (which may throw, propagated here as
`Except.error`) and build the context string; a falsy item falls through to
`return null`. -/
def getRepoContextBody (parse : ParseFn) (store : Store) :
    Except Unit (Option String) :=
  match store "gitstory-repo" with
  | none => Except.ok none
  | some saved =>
    if saved = "" then Except.ok none
    else
      match parse saved with
      | Except.error e => Except.error e
      | Except.ok sel =>
        Except.ok (some ("\n\n[Repository Context: " ++ repoContextUrl sel ++ "]"))

/-- `getRepoContext` (lines 68-81): returns `null` when `window` is
undefined; otherwise runs the `try` body, catching any thrown error and
falling through to `return null`. -/
def getRepoContext (windowDefined : Bool) (parse : ParseFn) (store : Store) :
    Option String :=
  if windowDefined = false then none
  else
    match getRepoContextBody parse store with
    | Except.error _ => none
    | Except.ok v => v

/-! ## Handler actions and their interpreter -/

/-- The options object passed to the SDK `submit`. -/
structure SubmitOptions where
  streamResponse : Option Bool
  resourceNames : List (String × String)
deriving DecidableEq, Repr

/-- The primitive effects the handlers perform, in program order: SDK
`setValue`, an awaited `setTimeout` delay, SDK `submit`, and SDK
`startNewThread`. -/
inductive Action where
  | setValue (v : String)
  | sleep (ms : Nat)
  | submit (options : SubmitOptions)
  | startNewThread
deriving DecidableEq, Repr

def isSetValueAction : Action → Bool
  | Action.setValue _ => true
  | _ => false

def isSubmitAction : Action → Bool
  | Action.submit _ => true
  | _ => false

def isSleepAction : Action → Bool
  | Action.sleep _ => true
  | _ => false

/-- Observable SDK-facing state: the current input value, the messages
handed to the SDK `submit` (with the input value at submit time), and how
many times `startNewThread` ran. -/
structure ChatState where
  inputValue : String
  submitted : List (String × SubmitOptions)
  threadsStarted : Nat
deriving DecidableEq, Repr

/-- One step of the interpreter.  `submit` hands the current input value to
the SDK and clears it (the source comment at line 133 notes the value is
cleared after submit). -/
def runAction (s : ChatState) : Action → ChatState
  | Action.setValue v => { s with inputValue := v }
  | Action.sleep _ => s
  | Action.submit o =>
      { s with submitted := s.submitted ++ [(s.inputValue, o)], inputValue := "" }
  | Action.startNewThread => { s with threadsStarted := s.threadsStarted + 1 }

def run (actions : List Action) (s : ChatState) : ChatState :=
  actions.foldl runAction s

/-! ## The handlers of `message-thread-full.tsx` -/

/-- `handleStartNewThread` (lines 85-87): the listener for the
`gitstory-start-new-thread` event calls `startNewThread()` and nothing
else. -/
def handleStartNewThread : List Action := [Action.startNewThread]

/-- The hidden-tag prefix `<!-- HIDDEN:import-code-initialization -->`
prepended at line 100 (assembled by concatenation). -/
def importHiddenTag : String :=
  "<!-- HIDDEN:import-code-initialization" ++ " " ++ "-->"

/-- The hidden message built at line 100 from the event detail `repoUrl`. -/
def hiddenImportMessage (repoUrl : String) : String :=
  importHiddenTag ++ ("I want to explore this GitHub repository: " ++ repoUrl)

/-- The options object `{ streamResponse: true, resourceNames: {} }` passed
to `submit` at line 108. -/
def importSubmitOptions : SubmitOptions :=
  { streamResponse := some true, resourceNames := [] }

/-- `handleImportCodeMessage` (lines 97-109): wait 200ms for the new thread,
set the hidden message, wait 50ms, submit with `streamResponse: true`. -/
def handleImportCodeMessage (repoUrl : String) : List Action :=
  [Action.sleep 200,
   Action.setValue (hiddenImportMessage repoUrl),
   Action.sleep 50,
   Action.submit importSubmitOptions]

/-- `submitWithRepoContext` (lines 118-138): when `repoContext` is non-null
and `value` is truthy, set `value + repoContext`, wait 50ms, then submit;
otherwise submit directly with the options unchanged. -/
def submitWithRepoContext (windowDefined : Bool) (parse : ParseFn)
    (store : Store) (value : String) (options : SubmitOptions) : List Action :=
  match getRepoContext windowDefined parse store with
  | some repoContext =>
      if value = "" then [Action.submit options]
      else
        [Action.setValue (value ++ repoContext),
         Action.sleep 50,
         Action.submit options]
  | none => [Action.submit options]

/-! ## Window listener bookkeeping (the two `useEffect` blocks) -/

/-- Identity of the handler closures created inside the two effects. -/
inductive HandlerId where
  | startNewThreadHandler
  | codeImportHandler
deriving DecidableEq, Repr

/-- A registration in the window listener table: event name plus handler
identity (DOM listeners are keyed by both). -/
structure Listener where
  eventName : String
  handler : HandlerId
deriving DecidableEq, Repr

/-- DOM `window.addEventListener`: adding an already-registered
(event, handler) pair is a no-op. -/
def addEventListener (ls : List Listener) (l : Listener) : List Listener :=
  if l ∈ ls then ls else ls ++ [l]

/-- DOM `window.removeEventListener`: removes the matching registration. -/
def removeEventListener (ls : List Listener) (l : Listener) : List Listener :=
  ls.erase l

def startNewThreadListener : Listener :=
  { eventName := "gitstory-start-new-thread"
    handler := HandlerId.startNewThreadHandler }

def codeImportListener : Listener :=
  { eventName := "gitstory-import-code-message"
    handler := HandlerId.codeImportHandler }

/-- Effect body at line 89: register `handleStartNewThread` for
`gitstory-start-new-thread`. -/
def newThreadEffectSetup (ls : List Listener) : List Listener :=
  addEventListener ls startNewThreadListener

/-- Effect cleanup at lines 90-92: remove that same handler for that same
event name. -/
def newThreadEffectCleanup (ls : List Listener) : List Listener :=
  removeEventListener ls startNewThreadListener

/-- Effect body at line 111: register `handleImportCodeMessage` for
`gitstory-import-code-message`. -/
def codeImportEffectSetup (ls : List Listener) : List Listener :=
  addEventListener ls codeImportListener

/-- Effect cleanup at lines 112-114: remove that same handler for that same
event name. -/
def codeImportEffectCleanup (ls : List Listener) : List Listener :=
  removeEventListener ls codeImportListener

/-! ## The submit path of the message input -/

/-- From the JSX at lines 198-209 of `message-thread-full.tsx`: the
`MessageInput` element receives only child elements as props.  In
particular `submitWithRepoContext` is not passed to it, and the component
renders no context provider that could carry it, so no overriding submit
function reaches the message input. -/
def messageInputSubmitOverride :
    Option (Bool → ParseFn → Store → String → SubmitOptions → List Action) :=
  none

/-- Modelled from the spec: the `MessageInput` component (repository file
`src/components/tambo/message-input.tsx`, not present under src/) delegates
submission to the external SDK (`useTamboThreadInput`); it submits through
an overriding submit function only when one is wired to it via props, and
otherwise invokes the SDK `submit` directly on the typed value. -/
def messageInputSubmit (windowDefined : Bool) (parse : ParseFn)
    (store : Store) (value : String) (options : SubmitOptions) : List Action :=
  match messageInputSubmitOverride with
  | some f => f windowDefined parse store value options
  | none => [Action.submit options]

/-! ## The top-level page (`Home`) -/

/-- The props given to `TamboProvider` in `Home`. -/
structure ProviderConfig (C T M : Type) where
  apiKey : String
  components : C
  tools : T
  tamboUrl : Option String
  mcpServers : M

/-- A fragment of the rendered element tree, abstracting the component and
tool registries and the MCP server list as type parameters. -/
inductive Node (C T M : Type) where
  | provider (config : ProviderConfig C T M) (children : List (Node C T M))
  | element (tag : String) (children : List (Node C T M))
  | messageThreadFull
  | gitBranchIcon
  | text (s : String)

/-- The tree contains a `MessageThreadFull` element somewhere inside. -/
inductive ContainsThread {C T M : Type} : Node C T M → Prop where
  | here : ContainsThread Node.messageThreadFull
  | inProvider {cfg : ProviderConfig C T M} {cs : List (Node C T M)}
      {n : Node C T M} : n ∈ cs → ContainsThread n →
      ContainsThread (Node.provider cfg cs)
  | inElement {tag : String} {cs : List (Node C T M)} {n : Node C T M} :
      n ∈ cs → ContainsThread n → ContainsThread (Node.element tag cs)

/-- The provider configuration at the root of the tree, when the root is a
`TamboProvider`. -/
def rootProviderConfig {C T M : Type} :
    Node C T M → Option (ProviderConfig C T M)
  | Node.provider cfg _ => some cfg
  | _ => none

/-- The `Home` page component: `TamboProvider` receives the API key from
`NEXT_PUBLIC_TAMBO_API_KEY`, the registered `components` and `tools` from
the tambo library module, the optional `NEXT_PUBLIC_TAMBO_URL`, and the MCP
servers from `useMcpServers`; inside are the header bar and the
`MessageThreadFull` element. -/
def Home {C T M : Type} (apiKeyEnv : String) (tamboUrlEnv : Option String)
    (components : C) (tools : T) (mcpServers : M) : Node C T M :=
  Node.provider
    { apiKey := apiKeyEnv
      components := components
      tools := tools
      tamboUrl := tamboUrlEnv
      mcpServers := mcpServers }
    [Node.element "div"
      [Node.element "div"
        [Node.element "div"
          [Node.gitBranchIcon, Node.element "span" [Node.text "GitStory"]]],
       Node.element "div" [Node.messageThreadFull]]]

/-! ## Concrete fixtures used by witnesses -/

/-- A stand-in for the serialized JSON stored under `gitstory-repo`. -/
def sampleStoredString : String := "saved-repo-selection-octo-hello-main"

def sampleSelection : RepoSelection :=
  { owner := "octo", repo := "hello", branch := some "main" }

/-- A concrete parse function that recognises exactly the sample string. -/
def sampleParse : ParseFn := fun s =>
  if s = sampleStoredString then Except.ok sampleSelection else Except.error ()

/-- A localStorage holding the sample selection under `gitstory-repo`. -/
def sampleStore : Store := fun k =>
  if k = "gitstory-repo" then some sampleStoredString else none

def emptyStore : Store := fun _ => none

/-- A parse function that always throws, modelling malformed JSON. -/
def failParse : ParseFn := fun _ => Except.error ()

/-- A localStorage holding a malformed value under `gitstory-repo`. -/
def malformedStore : Store := fun k =>
  if k = "gitstory-repo" then some "not-a-json-object" else none

/-- Another store agreeing with `sampleStore` on `gitstory-repo` but
differing everywhere else. -/
def noisyStore : Store := fun k =>
  if k = "gitstory-repo" then some sampleStoredString else some "noise"

/-- Plain user submit options (no streaming flag). -/
def userSubmitOptions : SubmitOptions :=
  { streamResponse := none, resourceNames := [] }

/-! ## Claim theorems -/

/-- C2: `getRepoContext` reads the persisted selection from the localStorage
key `gitstory-repo`: when a value with fields owner, repo, branch is saved
there, it returns the string
`\n\n[Repository Context: https://github.com/owner/repo/tree/branch]` with
the `/tree/branch` suffix present exactly when `branch` is non-empty, and
when nothing is saved it returns null. -/
theorem c2_getRepoContext_reads_selection (parse : ParseFn) (store : Store) :
    (∀ saved owner repo branch,
      store "gitstory-repo" = some saved → saved ≠ "" →
      parse saved =
        Except.ok { owner := owner, repo := repo, branch := some branch } →
      getRepoContext true parse store =
        some ("\n\n[Repository Context: " ++
          ("https://github.com/" ++ owner ++ "/" ++ repo ++
            (if branch = "" then "" else "/tree/" ++ branch)) ++ "]")) ∧
    (store "gitstory-repo" = none → getRepoContext true parse store = none) := by
  constructor
  · intro saved owner repo branch hs hne hp
    simp [getRepoContext, getRepoContextBody, hs, hne, hp, repoContextUrl]
  · intro h
    simp [getRepoContext, getRepoContextBody, h]

/-- Witness for C2, at the sample store and parse function. -/
theorem c2_witness :
    getRepoContext true sampleParse sampleStore =
      some ("\n\n[Repository Context: " ++
        ("https://github.com/" ++ "octo" ++ "/" ++ "hello" ++
          (if "main" = "" then "" else "/tree/" ++ "main")) ++ "]") :=
  (c2_getRepoContext_reads_selection sampleParse sampleStore).1
    sampleStoredString "octo" "hello" "main" (by decide) (by decide)
    (by simp [sampleParse, sampleSelection])

/-- C8: `getRepoContext` is total and never throws: an absent item, an empty
item, and an item on which `JSON.parse` throws all yield null (the parse
failure is caught), never a propagated exception. -/
theorem c8_getRepoContext_total (w : Bool) (parse : ParseFn) (store : Store) :
    (store "gitstory-repo" = none → getRepoContext w parse store = none) ∧
    (store "gitstory-repo" = some "" → getRepoContext w parse store = none) ∧
    (∀ saved e, store "gitstory-repo" = some saved →
      parse saved = Except.error e → getRepoContext w parse store = none) := by
  refine ⟨?_, ?_, ?_⟩
  · intro h
    cases w <;> simp [getRepoContext, getRepoContextBody, h]
  · intro h
    cases w <;> simp [getRepoContext, getRepoContextBody, h]
  · intro saved e hs hp
    by_cases hne : saved = ""
    · cases w <;> simp [getRepoContext, getRepoContextBody, hs, hne]
    · cases w <;> simp [getRepoContext, getRepoContextBody, hs, hne, hp]

/-- Witness for C8, at a malformed stored value and an always-throwing
parse function. -/
theorem c8_witness :
    getRepoContext true failParse malformedStore = none :=
  (c8_getRepoContext_total true failParse malformedStore).2.2
    "not-a-json-object" () (by decide) rfl

/-- C10: `getRepoContext` is deterministic and depends only on the stored
value under `gitstory-repo` (given the same window availability): two
stores agreeing on that key yield identical results. -/
theorem c10_getRepoContext_deterministic (w : Bool) (parse : ParseFn)
    (s1 s2 : Store) (h : s1 "gitstory-repo" = s2 "gitstory-repo") :
    getRepoContext w parse s1 = getRepoContext w parse s2 := by
  unfold getRepoContext getRepoContextBody
  rw [h]

/-- Witness for C10: `sampleStore` and `noisyStore` differ on every key
except `gitstory-repo`, yet `getRepoContext` cannot tell them apart. -/
theorem c10_witness :
    getRepoContext true sampleParse sampleStore =
      getRepoContext true sampleParse noisyStore :=
  c10_getRepoContext_deterministic true sampleParse sampleStore noisyStore
    (by decide)

/-- C4: on each `gitstory-start-new-thread` event, the handler calls
`startNewThread` exactly once (and touches nothing else). -/
theorem c4_start_new_thread_once (s : ChatState) :
    (run handleStartNewThread s).threadsStarted = s.threadsStarted + 1 ∧
    handleStartNewThread.count Action.startNewThread = 1 ∧
    (run handleStartNewThread s).submitted = s.submitted ∧
    (run handleStartNewThread s).inputValue = s.inputValue :=
  ⟨rfl, rfl, rfl, rfl⟩

/-- C3: each `gitstory-import-code-message` event with detail `repoUrl` sets
the input to the hidden message (the hidden tag, then the exploration
sentence, then `repoUrl`) and then submits it with `streamResponse: true`:
the message handed to the SDK is exactly that hidden message. -/
theorem c3_import_code_event (repoUrl : String) (s : ChatState) :
    handleImportCodeMessage repoUrl =
      [Action.sleep 200,
       Action.setValue (importHiddenTag ++
         ("I want to explore this GitHub repository: " ++ repoUrl)),
       Action.sleep 50,
       Action.submit { streamResponse := some true, resourceNames := [] }] ∧
    (run (handleImportCodeMessage repoUrl) s).submitted =
      s.submitted ++ [(hiddenImportMessage repoUrl, importSubmitOptions)] := by
  constructor
  · rfl
  · simp [run, handleImportCodeMessage, runAction]

/-- C9: when no repo context is available or the input value is empty,
`submitWithRepoContext` submits directly, and the value handed to the SDK
is exactly the value the user typed, unchanged. -/
theorem c9_submit_unchanged (w : Bool) (parse : ParseFn) (store : Store)
    (v : String) (o : SubmitOptions) (s : ChatState)
    (hval : s.inputValue = v)
    (h : getRepoContext w parse store = none ∨ v = "") :
    submitWithRepoContext w parse store v o = [Action.submit o] ∧
    (run (submitWithRepoContext w parse store v o) s).submitted =
      s.submitted ++ [(v, o)] := by
  have hact : submitWithRepoContext w parse store v o = [Action.submit o] := by
    rcases h with h | h
    · simp [submitWithRepoContext, h]
    · unfold submitWithRepoContext
      cases getRepoContext w parse store <;> simp [h]
  refine ⟨hact, ?_⟩
  rw [hact]
  simp [run, runAction, hval]

/-- Witness for C9, with an empty localStorage and the typed value
`hello`. -/
theorem c9_witness :
    submitWithRepoContext true sampleParse emptyStore "hello"
        userSubmitOptions = [Action.submit userSubmitOptions] ∧
    (run (submitWithRepoContext true sampleParse emptyStore "hello"
        userSubmitOptions)
        { inputValue := "hello", submitted := [], threadsStarted := 0 }).submitted =
      [] ++ [("hello", userSubmitOptions)] :=
  c9_submit_unchanged true sampleParse emptyStore "hello" userSubmitOptions
    { inputValue := "hello", submitted := [], threadsStarted := 0 }
    rfl (Or.inl (by decide))

/-! ## Ordering of setValue, delay and submit within one handler run -/

/-- Within one handler invocation, every `submit` comes after every
`setValue`, and an awaited delay lies strictly between them. -/
def setValueBeforeSubmit (as : List Action) : Prop :=
  ∀ i j : Fin as.length,
    isSetValueAction (as.get i) = true → isSubmitAction (as.get j) = true →
    (i : Nat) < (j : Nat) ∧
      ∃ k : Fin as.length, (i : Nat) < (k : Nat) ∧ (k : Nat) < (j : Nat) ∧
        isSleepAction (as.get k) = true

theorem submit_only_order (o : SubmitOptions) :
    setValueBeforeSubmit [Action.submit o] := by
  intro i j hi _
  fin_cases i
  simp [isSetValueAction, List.get] at hi

theorem set_sleep_submit_order (b : Nat) (v : String) (o : SubmitOptions) :
    setValueBeforeSubmit [Action.setValue v, Action.sleep b, Action.submit o] := by
  intro i j hi hj
  fin_cases i <;> fin_cases j <;>
    simp_all [isSetValueAction, isSubmitAction, List.get]
  exact ⟨⟨1, by norm_num⟩, by norm_num, by norm_num, rfl⟩

theorem sleep_set_sleep_submit_order (a b : Nat) (v : String)
    (o : SubmitOptions) :
    setValueBeforeSubmit
      [Action.sleep a, Action.setValue v, Action.sleep b, Action.submit o] := by
  intro i j hi hj
  fin_cases i <;> fin_cases j <;>
    simp_all [isSetValueAction, isSubmitAction, List.get]
  exact ⟨⟨2, by norm_num⟩, by norm_num, by norm_num, rfl⟩

theorem handleImportCodeMessage_order (r : String) :
    setValueBeforeSubmit (handleImportCodeMessage r) :=
  sleep_set_sleep_submit_order 200 50 (hiddenImportMessage r) importSubmitOptions

theorem submitWithRepoContext_order (w : Bool) (parse : ParseFn)
    (store : Store) (v : String) (o : SubmitOptions) :
    setValueBeforeSubmit (submitWithRepoContext w parse store v o) := by
  have h : submitWithRepoContext w parse store v o = [Action.submit o] ∨
      ∃ c, submitWithRepoContext w parse store v o =
        [Action.setValue (v ++ c), Action.sleep 50, Action.submit o] := by
    unfold submitWithRepoContext
    cases getRepoContext w parse store with
    | none => exact Or.inl rfl
    | some c =>
      by_cases hv : v = ""
      · exact Or.inl (by simp [hv])
      · exact Or.inr ⟨c, by simp [hv]⟩
  rcases h with h | ⟨c, h⟩
  · rw [h]
    exact submit_only_order o
  · rw [h]
    exact set_sleep_submit_order 50 (v ++ c) o

/-- C6: in both the import-code handler and the repo-context submit wrapper,
the input value is never submitted before it is set: within one handler
invocation every `submit` follows every `setValue`, with an awaited timing
delay strictly between them. -/
theorem c6_set_then_delay_then_submit (r : String) (w : Bool)
    (parse : ParseFn) (store : Store) (v : String) (o : SubmitOptions) :
    setValueBeforeSubmit (handleImportCodeMessage r) ∧
    setValueBeforeSubmit (submitWithRepoContext w parse store v o) :=
  ⟨handleImportCodeMessage_order r,
   submitWithRepoContext_order w parse store v o⟩

/-- Witness for C6: in the concrete import-code action list the `setValue`
at position 1 precedes the `submit` at position 3, with a sleep between. -/
theorem c6_witness :
    (1 : Nat) < (3 : Nat) ∧
      ∃ k : Fin (handleImportCodeMessage "https://github.com/octo/hello").length,
        (1 : Nat) < (k : Nat) ∧ (k : Nat) < (3 : Nat) ∧
          isSleepAction
            ((handleImportCodeMessage "https://github.com/octo/hello").get k) =
            true :=
  (c6_set_then_delay_then_submit "https://github.com/octo/hello" true
      sampleParse sampleStore "hello" userSubmitOptions).1
    ⟨1, by decide⟩ ⟨3, by decide⟩ rfl rfl

/-! ## Listener bookkeeping -/

/-- C7: each effect removes on cleanup exactly the handler it registered for
the same event name, so running both setups and then both cleanups restores
the listener table, and no `gitstory-start-new-thread` or
`gitstory-import-code-message` listener added by the component remains. -/
theorem c7_listener_bookkeeping (ls : List Listener)
    (h1 : startNewThreadListener ∉ ls) (h2 : codeImportListener ∉ ls) :
    newThreadEffectCleanup (codeImportEffectCleanup
      (codeImportEffectSetup (newThreadEffectSetup ls))) = ls ∧
    startNewThreadListener ∉ newThreadEffectCleanup (codeImportEffectCleanup
      (codeImportEffectSetup (newThreadEffectSetup ls))) ∧
    codeImportListener ∉ newThreadEffectCleanup (codeImportEffectCleanup
      (codeImportEffectSetup (newThreadEffectSetup ls))) := by
  have hne : codeImportListener ≠ startNewThreadListener := by decide
  have h2b : codeImportListener ∉ ls ++ [startNewThreadListener] := by
    simp [h2, hne]
  have e1 : newThreadEffectSetup ls = ls ++ [startNewThreadListener] := by
    simp [newThreadEffectSetup, addEventListener, h1]
  have e2 : codeImportEffectSetup (ls ++ [startNewThreadListener]) =
      ls ++ [startNewThreadListener] ++ [codeImportListener] := by
    simp only [codeImportEffectSetup, addEventListener, if_neg h2b]
  have e3 : codeImportEffectCleanup
      (ls ++ [startNewThreadListener] ++ [codeImportListener]) =
      ls ++ [startNewThreadListener] := by
    unfold codeImportEffectCleanup removeEventListener
    rw [List.erase_append_right _ h2b]
    simp
  have e4 : newThreadEffectCleanup (ls ++ [startNewThreadListener]) = ls := by
    unfold newThreadEffectCleanup removeEventListener
    rw [List.erase_append_right _ h1]
    simp
  rw [e1, e2, e3, e4]
  exact ⟨rfl, h1, h2⟩

/-- Witness for C7, starting from an empty listener table. -/
theorem c7_witness :
    newThreadEffectCleanup (codeImportEffectCleanup
      (codeImportEffectSetup (newThreadEffectSetup []))) = [] ∧
    startNewThreadListener ∉ newThreadEffectCleanup (codeImportEffectCleanup
      (codeImportEffectSetup (newThreadEffectSetup []))) ∧
    codeImportListener ∉ newThreadEffectCleanup (codeImportEffectCleanup
      (codeImportEffectSetup (newThreadEffectSetup []))) :=
  c7_listener_bookkeeping [] (by decide) (by decide)

/-! ## The Home page wiring -/

/-- C5: the top-level page renders a `TamboProvider` configured with the API
key from the environment, the registered components and tools, and the MCP
servers from `useMcpServers`, and the full-screen message thread is inside
it. -/
theorem c5_home_wraps_thread {C T M : Type} (key : String)
    (url : Option String) (components : C) (tools : T) (servers : M) :
    rootProviderConfig (Home key url components tools servers) =
      some { apiKey := key, components := components, tools := tools,
             tamboUrl := url, mcpServers := servers } ∧
    ContainsThread (Home key url components tools servers) := by
  refine ⟨rfl, ?_⟩
  refine ContainsThread.inProvider (List.mem_singleton_self _) ?_
  refine ContainsThread.inElement
    (n := Node.element "div" [Node.messageThreadFull]) (by simp) ?_
  exact ContainsThread.inElement (List.mem_singleton_self _)
    ContainsThread.here

/-! ## The message-input submit path carries no repo context -/

/-- C1: the claim fails on the code.  The JSX wires no submit override to
`MessageInput`, so a message typed in the input is submitted through the
plain SDK `submit`: even with a repo selection persisted under
`gitstory-repo` (so `getRepoContext` yields a context string), the value
handed to the SDK is the typed value alone and no `setValue` occurs on the
submit path — the repository context is never appended. -/
theorem c1_no_context_injected_on_input_submit :
    getRepoContext true sampleParse sampleStore =
      some "\n\n[Repository Context: https://github.com/octo/hello/tree/main]" ∧
    messageInputSubmit true sampleParse sampleStore "Tell me about this repo"
        userSubmitOptions = [Action.submit userSubmitOptions] ∧
    (run (messageInputSubmit true sampleParse sampleStore
        "Tell me about this repo" userSubmitOptions)
      { inputValue := "Tell me about this repo", submitted := [],
        threadsStarted := 0 }).submitted =
      [("Tell me about this repo", userSubmitOptions)] ∧
    (messageInputSubmit true sampleParse sampleStore "Tell me about this repo"
        userSubmitOptions).filter isSetValueAction = [] := by
  refine ⟨?_, rfl, rfl, rfl⟩
  simp [getRepoContext, getRepoContextBody, sampleStore, sampleParse,
    sampleStoredString, sampleSelection, repoContextUrl]

end GitStory
